import Mathlib

/-!
Shallow embedding of the cyclomatic-complexity VS Code extension
(`src/extension.ts`): the debounce scheduler wired up in `activate`,
and the orchestration function `performAnalysis`, with the network
fetch abstracted as an environment-supplied outcome and host effects
(notices, requests, panel messages) collected explicitly.
-/

/-- An active text editor as seen by the extension: its document's
language id and full text. -/
structure Editor where
  languageId : String
  text : String
  deriving DecidableEq, Repr

/-- A webview panel: an identity (creation counter), the list of messages
posted to it, and whether it is currently visible. -/
structure Panel where
  id : Nat
  messages : List String
  visible : Bool
  deriving DecidableEq, Repr

/-- The extension's panel-related module state: the `currentPanel`
reference (possibly undefined) and a counter giving fresh panel
identities. -/
structure PanelSt where
  currentPanel : Option Panel
  nextPanelId : Nat
  deriving DecidableEq, Repr

/-- User-visible notices the extension can show
(`showInformationMessage` / `showErrorMessage` calls in
`performAnalysis`). -/
inductive Notice where
  | infoNoActiveEditor : Notice
  | infoAnalyzing (language : String) : Notice
  | errorUnsupported (languageId : String) : Notice
  | errorAnalysisFailed (message : String) : Notice
  | errorConnection (message : String) : Notice
  deriving DecidableEq, Repr

/-- The wire-level payload sent to the backend:
`{ code, language }` (the `fetch` body). -/
structure AnalysisRequest where
  code : String
  language : String
  deriving DecidableEq, Repr

/-- Abstraction of the `fetch` call's outcome: a successful response with
an opaque result payload, a non-success HTTP status carrying the error
message the extension extracts (`errorData.error || response.statusText`),
or a thrown error (connection failure / malformed payload). -/
inductive FetchOutcome where
  | success (payload : String) : FetchOutcome
  | serviceError (message : String) : FetchOutcome
  | transportError (message : String) : FetchOutcome
  deriving DecidableEq, Repr

/-- The observable effects of one `performAnalysis` invocation: requests
sent to the backend, notices shown to the user, messages posted to a
panel (panel id, payload), and panels revealed. -/
structure AnalysisOutput where
  requests : List AnalysisRequest
  notices : List Notice
  posted : List (Nat × String)
  revealed : List Nat
  deriving DecidableEq, Repr

/-- The `switch (languageId)` mapping in `performAnalysis`:
`typescript` and `javascript` map to backend `javascript`, `java` and
`python` map to themselves, everything else falls to the `default`
branch (no backend language). -/
def mapLanguage (languageId : String) : Option String :=
  if languageId = "typescript" ∨ languageId = "javascript" then some "javascript"
  else if languageId = "java" then some "java"
  else if languageId = "python" then some "python"
  else none

/-- One run of `performAnalysis(forcePanelCreation)` from `extension.ts`,
given the active editor at call time, the fetch outcome the environment
would produce, and the current panel state. Returns the new panel state
and the collected effects, mirroring the source control flow:
no-editor early return, language mapping with `default` early return,
"Analyzing ..." info for manual triggers, the `!response.ok` branch,
the panel update/create logic, and the `catch` branch. -/
def performAnalysis (forcePanelCreation : Bool) (activeTextEditor : Option Editor)
    (outcome : FetchOutcome) (st : PanelSt) : PanelSt × AnalysisOutput :=
  match activeTextEditor with
  | none =>
    (st, { requests := [], posted := [], revealed := [],
           notices := if forcePanelCreation then [Notice.infoNoActiveEditor] else [] })
  | some editor =>
    match mapLanguage editor.languageId with
    | none =>
      (st, { requests := [], posted := [], revealed := [],
             notices := if forcePanelCreation then [Notice.errorUnsupported editor.languageId] else [] })
    | some backendLanguage =>
      let preNotices := if forcePanelCreation then [Notice.infoAnalyzing backendLanguage] else []
      let request : AnalysisRequest := { code := editor.text, language := backendLanguage }
      match outcome with
      | FetchOutcome.serviceError message =>
        (st, { requests := [request], posted := [], revealed := [],
               notices := preNotices ++ [Notice.errorAnalysisFailed message] })
      | FetchOutcome.transportError message =>
        (st, { requests := [request], posted := [], revealed := [],
               notices := preNotices ++
                 (if forcePanelCreation || st.currentPanel.isNone
                  then [Notice.errorConnection message] else []) })
      | FetchOutcome.success payload =>
        match st.currentPanel with
        | some panel =>
          let panel' : Panel := { panel with messages := panel.messages ++ [payload] }
          let doReveal := !panel'.visible || forcePanelCreation
          let panel'' : Panel := if doReveal then { panel' with visible := true } else panel'
          ({ st with currentPanel := some panel'' },
           { requests := [request], notices := preNotices,
             posted := [(panel.id, payload)],
             revealed := if doReveal then [panel.id] else [] })
        | none =>
          if forcePanelCreation then
            ({ currentPanel := some { id := st.nextPanelId, messages := [payload], visible := true },
               nextPanelId := st.nextPanelId + 1 },
             { requests := [request], notices := preNotices,
               posted := [(st.nextPanelId, payload)], revealed := [] })
          else
            (st, { requests := [request], notices := preNotices, posted := [], revealed := [] })

/-- The `onDidDispose` hook registered at panel creation: when the user
closes the panel, the stored reference is cleared
(`currentPanel = undefined`). -/
def disposePanel (st : PanelSt) : PanelSt :=
  { st with currentPanel := none }

/-- The debounce delay constant `DEBOUNCE_DELAY_MS = 500`. -/
def DEBOUNCE_DELAY_MS : Nat := 500

/-- The language-id allow list checked by both `activate` listeners:
`['java', 'javascript', 'typescript', 'python'].includes(languageId)`. -/
def supportedTags : List String := ["java", "javascript", "typescript", "python"]

/-- How a `performAnalysis` invocation was triggered: the registered
command, the expiry of the debounce timer, or the active-editor-changed
listener. -/
inductive Trigger where
  | manual : Trigger
  | background : Trigger
  | focusChange : Trigger
  deriving DecidableEq, Repr

/-- The `forcePanelCreation` argument each trigger passes:
the command calls `performAnalysis(true)`, the other two call
`performAnalysis()` (default `false`). -/
def Trigger.force : Trigger → Bool
  | Trigger.manual => true
  | Trigger.background => false
  | Trigger.focusChange => false

/-- One logged `performAnalysis` invocation: when it ran, what triggered
it, and its observable effects. -/
structure AnalysisRecord where
  time : Nat
  trigger : Trigger
  output : AnalysisOutput
  deriving DecidableEq, Repr

/-- The event-loop state of the activated extension: current time, the
active editor, the pending debounce deadline (`debounceTimeout`), the
panel module state, and the log of analysis invocations. -/
structure SchedState where
  now : Nat
  active : Option Editor
  deadline : Option Nat
  panel : PanelSt
  log : List AnalysisRecord
  deriving DecidableEq, Repr

/-- Run an analysis now with the given trigger, recording its effects. -/
def runAnalysisStep (trigger : Trigger) (outcome : FetchOutcome) (st : SchedState) : SchedState :=
  let r := performAnalysis trigger.force st.active outcome st.panel
  { st with panel := r.1,
            log := st.log ++ [{ time := st.now, trigger := trigger, output := r.2 }] }

/-- Host events driving the extension: an edit to the active document
(carrying its new full text), an edit to some non-active document, an
active-editor change, the manual command, the passage of time (during
which a pending timer may fire), and the user closing the panel.
Events that can cause a fetch carry the outcome the environment would
return for it. -/
inductive Ev where
  | edit (newText : String) : Ev
  | editOther : Ev
  | focus (editor : Option Editor) (outcome : FetchOutcome) : Ev
  | manual (outcome : FetchOutcome) : Ev
  | elapse (d : Nat) (outcome : FetchOutcome) : Ev
  | closePanel : Ev

/-- Small-step semantics of the `activate` wiring.
`edit`: the `onDidChangeTextDocument` listener — if the change is in the
active editor and its language is in the allow list, clear any pending
timer and arm a new one for `DEBOUNCE_DELAY_MS`.
`editOther`: the listener ignores changes outside the active editor.
`focus`: the `onDidChangeActiveTextEditor` listener — if an editor is
given and its language is in the allow list, run `performAnalysis()`
immediately (the pending timer is not touched).
`manual`: the registered command — run `performAnalysis(true)` immediately.
`elapse d`: time passes; if the pending deadline falls within the
interval the timer fires, running `performAnalysis()` at that instant.
`closePanel`: the user closes the panel, firing the dispose hook. -/
def step (st : SchedState) : Ev → SchedState
  | Ev.edit newText =>
    match st.active with
    | some editor =>
      let editor' : Editor := { editor with text := newText }
      let st' := { st with active := some editor' }
      if supportedTags.contains editor'.languageId then
        { st' with deadline := some (st'.now + DEBOUNCE_DELAY_MS) }
      else st'
    | none => st
  | Ev.editOther => st
  | Ev.focus editor outcome =>
    let st' := { st with active := editor }
    match editor with
    | some e =>
      if supportedTags.contains e.languageId then
        runAnalysisStep Trigger.focusChange outcome st'
      else st'
    | none => st'
  | Ev.manual outcome => runAnalysisStep Trigger.manual outcome st
  | Ev.elapse d outcome =>
    match st.deadline with
    | some t =>
      if t ≤ st.now + d then
        let fired := runAnalysisStep Trigger.background outcome
          { st with now := t, deadline := none }
        { fired with now := st.now + d }
      else { st with now := st.now + d }
    | none => { st with now := st.now + d }
  | Ev.closePanel => { st with panel := disposePanel st.panel }

/-- Run a sequence of host events from a state. -/
def run (st : SchedState) (events : List Ev) : SchedState :=
  events.foldl step st

/-- Sum of the inter-edit gaps of a burst tail. -/
def gapSum : List (Nat × String) → Nat
  | [] => 0
  | (g, _) :: rest => g + gapSum rest

/-- The text carried by the last edit of a burst (default: the text of
the first edit). -/
def lastText (dflt : String) : List (Nat × String) → String
  | [] => dflt
  | (_, t) :: rest => lastText t rest

/-- The tail of a burst: for each `(g, t)`, `g` milliseconds pass and
then an edit sets the active document's text to `t`. -/
def burstTail (o : FetchOutcome) : List (Nat × String) → List Ev
  | [] => []
  | (g, t) :: rest => Ev.elapse g o :: Ev.edit t :: burstTail o rest

/-- A full burst: a first edit, the tail, then enough idle time for the
debounce timer to expire. -/
def burstTrace (firstText : String) (rest : List (Nat × String)) (o : FetchOutcome) : List Ev :=
  Ev.edit firstText :: (burstTail o rest ++ [Ev.elapse DEBOUNCE_DELAY_MS o])

/-- Whether a notice reports a failed analysis attempt (the
`Analysis failed:` and `Could not connect` error messages). -/
def isFailureNotice : Notice → Bool
  | Notice.errorAnalysisFailed _ => true
  | Notice.errorConnection _ => true
  | _ => false

/-- Whether an invocation's effects include a user-visible failure
notice. -/
def showsFailureNotice (out : AnalysisOutput) : Bool :=
  out.notices.any isFailureNotice

/-- Once the language maps, every outcome branch of `performAnalysis`
has sent exactly one request carrying the editor's text and the mapped
backend language. -/
theorem performAnalysis_requests_eq (fc : Bool) (ed : Editor) (o : FetchOutcome)
    (st : PanelSt) (lang : String) (hmap : mapLanguage ed.languageId = some lang) :
    (performAnalysis fc (some ed) o st).2.requests = [{ code := ed.text, language := lang }] := by
  cases o with
  | success payload =>
    cases h : st.currentPanel with
    | some panel => simp [performAnalysis, hmap, h]
    | none => cases fc <;> simp [performAnalysis, hmap, h]
  | serviceError message => simp [performAnalysis, hmap]
  | transportError message => simp [performAnalysis, hmap]

/-- When the language does not map, `performAnalysis` returns before the
fetch: the state is unchanged and no request, post or reveal happens. -/
theorem performAnalysis_unsupported (fc : Bool) (ed : Editor) (o : FetchOutcome)
    (st : PanelSt) (hmap : mapLanguage ed.languageId = none) :
    performAnalysis fc (some ed) o st =
      (st, { requests := [], posted := [], revealed := [],
             notices := if fc then [Notice.errorUnsupported ed.languageId] else [] }) := by
  simp [performAnalysis, hmap]

/-- Claim C1 counterexample: with a Background trigger (forcePanelCreation
false) and a Panel already Open, a ServiceError still produces a
user-visible failure notice, contradicting the claim that no popup is
produced in that situation for either error kind. -/
theorem c1_counterexample :
    ((⟨some ⟨0, [], true⟩, 1⟩ : PanelSt).currentPanel.isSome = true)
    ∧ showsFailureNotice (performAnalysis false (some ⟨"python", "x"⟩)
        (FetchOutcome.serviceError "boom") ⟨some ⟨0, [], true⟩, 1⟩).2 = true := by
  exact ⟨rfl, by decide⟩

/-- Claim C1 (amended): a ServiceError always produces a user-visible
failure notice, whatever the trigger and panel state; a TransportError
produces one exactly when the trigger was Manual or no Panel is
currently Open. -/
theorem c1_failure_notice_visibility (fc : Bool) (ed : Editor) (st : PanelSt)
    (msg lang : String) (hmap : mapLanguage ed.languageId = some lang) :
    showsFailureNotice (performAnalysis fc (some ed) (FetchOutcome.serviceError msg) st).2 = true
    ∧ showsFailureNotice (performAnalysis fc (some ed) (FetchOutcome.transportError msg) st).2
        = (fc || st.currentPanel.isNone) := by
  constructor
  · cases fc <;> simp [performAnalysis, hmap, showsFailureNotice, isFailureNotice]
  · cases fc <;> cases h : st.currentPanel <;>
      simp [performAnalysis, hmap, showsFailureNotice, isFailureNotice, h]

/-- Claim C1 witness: concrete Background run with no panel, both error
kinds evaluated. -/
theorem c1_witness :
    mapLanguage "python" = some "python"
    ∧ (showsFailureNotice (performAnalysis false (some ⟨"python", "x"⟩)
          (FetchOutcome.serviceError "m") ⟨none, 0⟩).2 = true
       ∧ showsFailureNotice (performAnalysis false (some ⟨"python", "x"⟩)
          (FetchOutcome.transportError "m") ⟨none, 0⟩).2
        = (false || (⟨none, 0⟩ : PanelSt).currentPanel.isNone)) :=
  ⟨by decide, c1_failure_notice_visibility false ⟨"python", "x"⟩ ⟨none, 0⟩ "m" "python" (by decide)⟩

/-- Claim C4: a Manual-triggered success with a panel Open reuses the
existing panel (same id), posts the result to it, reveals it, and does
not construct a second panel (the creation counter is unchanged). -/
theorem c4_single_panel_reuse (st : PanelSt) (p : Panel) (ed : Editor)
    (lang payload : String) (hp : st.currentPanel = some p)
    (hmap : mapLanguage ed.languageId = some lang) :
    (performAnalysis true (some ed) (FetchOutcome.success payload) st).1 =
      { st with currentPanel := some { p with messages := p.messages ++ [payload], visible := true } }
    ∧ (performAnalysis true (some ed) (FetchOutcome.success payload) st).2.posted = [(p.id, payload)]
    ∧ (performAnalysis true (some ed) (FetchOutcome.success payload) st).1.nextPanelId = st.nextPanelId := by
  simp [performAnalysis, hmap, hp]

/-- Claim C4 witness: concrete Manual success against an open panel. -/
theorem c4_witness :
    (⟨some ⟨7, ["m0"], false⟩, 8⟩ : PanelSt).currentPanel = some ⟨7, ["m0"], false⟩
    ∧ mapLanguage "java" = some "java"
    ∧ ((performAnalysis true (some ⟨"java", "T"⟩) (FetchOutcome.success "P")
          ⟨some ⟨7, ["m0"], false⟩, 8⟩).1 = ⟨some ⟨7, ["m0"] ++ ["P"], true⟩, 8⟩
       ∧ (performAnalysis true (some ⟨"java", "T"⟩) (FetchOutcome.success "P")
          ⟨some ⟨7, ["m0"], false⟩, 8⟩).2.posted = [(7, "P")]
       ∧ (performAnalysis true (some ⟨"java", "T"⟩) (FetchOutcome.success "P")
          ⟨some ⟨7, ["m0"], false⟩, 8⟩).1.nextPanelId = 8) :=
  ⟨rfl, by decide,
   c4_single_panel_reuse ⟨some ⟨7, ["m0"], false⟩, 8⟩ ⟨7, ["m0"], false⟩ ⟨"java", "T"⟩
     "java" "P" rfl (by decide)⟩

/-- Claim C5: a Background-triggered success with no panel Open leaves the
state unchanged, posts nothing, and creates no panel. -/
theorem c5_background_never_creates (st : PanelSt) (ed : Editor) (lang payload : String)
    (hp : st.currentPanel = none) (hmap : mapLanguage ed.languageId = some lang) :
    (performAnalysis false (some ed) (FetchOutcome.success payload) st).1 = st
    ∧ (performAnalysis false (some ed) (FetchOutcome.success payload) st).2.posted = []
    ∧ (performAnalysis false (some ed) (FetchOutcome.success payload) st).1.currentPanel = none := by
  simp [performAnalysis, hmap, hp]

/-- Claim C5 witness: concrete Background success with no panel. -/
theorem c5_witness :
    (⟨none, 3⟩ : PanelSt).currentPanel = none
    ∧ mapLanguage "python" = some "python"
    ∧ ((performAnalysis false (some ⟨"python", "T"⟩) (FetchOutcome.success "P") ⟨none, 3⟩).1 = ⟨none, 3⟩
       ∧ (performAnalysis false (some ⟨"python", "T"⟩) (FetchOutcome.success "P") ⟨none, 3⟩).2.posted = []
       ∧ (performAnalysis false (some ⟨"python", "T"⟩) (FetchOutcome.success "P") ⟨none, 3⟩).1.currentPanel = none) :=
  ⟨rfl, by decide,
   c5_background_never_creates ⟨none, 3⟩ ⟨"python", "T"⟩ "python" "P" rfl (by decide)⟩

/-- Claim C6: after the dispose hook clears the panel reference, a
Background success does not recreate the panel, while a Manual success
creates a fresh panel (the next identity) and posts the result to it. -/
theorem c6_dispose_then_retrigger (st : PanelSt) (ed : Editor) (lang p1 p2 : String)
    (hmap : mapLanguage ed.languageId = some lang) :
    (disposePanel st).currentPanel = none
    ∧ (performAnalysis false (some ed) (FetchOutcome.success p1) (disposePanel st)).1.currentPanel = none
    ∧ (performAnalysis true (some ed) (FetchOutcome.success p2) (disposePanel st)).1.currentPanel =
        some { id := st.nextPanelId, messages := [p2], visible := true }
    ∧ (performAnalysis true (some ed) (FetchOutcome.success p2) (disposePanel st)).2.posted =
        [(st.nextPanelId, p2)] := by
  simp [performAnalysis, disposePanel, hmap]

/-- Claim C6 witness: dispose a concrete open panel, then Background and
Manual successes. -/
theorem c6_witness :
    mapLanguage "javascript" = some "javascript"
    ∧ ((disposePanel ⟨some ⟨4, ["old"], true⟩, 5⟩).currentPanel = none
       ∧ (performAnalysis false (some ⟨"javascript", "T"⟩) (FetchOutcome.success "P1")
            (disposePanel ⟨some ⟨4, ["old"], true⟩, 5⟩)).1.currentPanel = none
       ∧ (performAnalysis true (some ⟨"javascript", "T"⟩) (FetchOutcome.success "P2")
            (disposePanel ⟨some ⟨4, ["old"], true⟩, 5⟩)).1.currentPanel =
          some { id := 5, messages := ["P2"], visible := true }
       ∧ (performAnalysis true (some ⟨"javascript", "T"⟩) (FetchOutcome.success "P2")
            (disposePanel ⟨some ⟨4, ["old"], true⟩, 5⟩)).2.posted = [(5, "P2")]) :=
  ⟨by decide,
   c6_dispose_then_retrigger ⟨some ⟨4, ["old"], true⟩, 5⟩ ⟨"javascript", "T"⟩
     "javascript" "P1" "P2" (by decide)⟩

/-- Claim C7: the backend language of the dispatched request follows the
fixed mapping (typescript and javascript to javascript, java to java,
python to python), and any other tag maps to nothing and sends no
request. -/
theorem c7_language_mapping (fc : Bool) (ed : Editor) (o : FetchOutcome) (st : PanelSt) :
    mapLanguage "typescript" = some "javascript"
    ∧ mapLanguage "javascript" = some "javascript"
    ∧ mapLanguage "java" = some "java"
    ∧ mapLanguage "python" = some "python"
    ∧ (performAnalysis fc (some ed) o st).2.requests =
        (match mapLanguage ed.languageId with
         | some lang => [{ code := ed.text, language := lang }]
         | none => [])
    ∧ (ed.languageId ≠ "typescript" → ed.languageId ≠ "javascript" →
       ed.languageId ≠ "java" → ed.languageId ≠ "python" →
       mapLanguage ed.languageId = none ∧ (performAnalysis fc (some ed) o st).2.requests = []) := by
  refine ⟨by decide, by decide, by decide, by decide, ?_, ?_⟩
  · cases h : mapLanguage ed.languageId with
    | some lang => simpa using performAnalysis_requests_eq fc ed o st lang h
    | none => simp [performAnalysis_unsupported fc ed o st h]
  · intro h1 h2 h3 h4
    have hmap : mapLanguage ed.languageId = none := by simp [mapLanguage, h1, h2, h3, h4]
    exact ⟨hmap, by simp [performAnalysis_unsupported fc ed o st hmap]⟩

/-- Claim C7 witness: an unsupported tag sends no request; the mapping
values evaluate as stated. -/
theorem c7_witness :
    mapLanguage "typescript" = some "javascript"
    ∧ mapLanguage "ruby" = none
    ∧ (performAnalysis false (some ⟨"ruby", "x"⟩) (FetchOutcome.success "R") ⟨none, 0⟩).2.requests = [] :=
  ⟨(c7_language_mapping false ⟨"ruby", "x"⟩ (FetchOutcome.success "R") ⟨none, 0⟩).1,
   ((c7_language_mapping false ⟨"ruby", "x"⟩ (FetchOutcome.success "R") ⟨none, 0⟩).2.2.2.2.2
      (by decide) (by decide) (by decide) (by decide)).1,
   ((c7_language_mapping false ⟨"ruby", "x"⟩ (FetchOutcome.success "R") ⟨none, 0⟩).2.2.2.2.2
      (by decide) (by decide) (by decide) (by decide)).2⟩

/-- Claim C8: an intent for an unsupported language is dropped before the
fetch: state unchanged, no request, nothing posted, and exactly one
unsupported-language notice when Manual, none when Background. -/
theorem c8_unsupported_drop (fc : Bool) (ed : Editor) (o : FetchOutcome) (st : PanelSt)
    (hmap : mapLanguage ed.languageId = none) :
    (performAnalysis fc (some ed) o st).1 = st
    ∧ (performAnalysis fc (some ed) o st).2.requests = []
    ∧ (performAnalysis fc (some ed) o st).2.posted = []
    ∧ (performAnalysis fc (some ed) o st).2.notices =
        (if fc then [Notice.errorUnsupported ed.languageId] else []) := by
  simp [performAnalysis_unsupported fc ed o st hmap]

/-- Claim C8 witness: Manual trigger on a ruby document. -/
theorem c8_witness :
    mapLanguage "ruby" = none
    ∧ ((performAnalysis true (some ⟨"ruby", "x"⟩) (FetchOutcome.transportError "m") ⟨none, 0⟩).1 = ⟨none, 0⟩
       ∧ (performAnalysis true (some ⟨"ruby", "x"⟩) (FetchOutcome.transportError "m") ⟨none, 0⟩).2.requests = []
       ∧ (performAnalysis true (some ⟨"ruby", "x"⟩) (FetchOutcome.transportError "m") ⟨none, 0⟩).2.posted = []
       ∧ (performAnalysis true (some ⟨"ruby", "x"⟩) (FetchOutcome.transportError "m") ⟨none, 0⟩).2.notices =
          (if true then [Notice.errorUnsupported "ruby"] else [])) :=
  ⟨by decide,
   c8_unsupported_drop true ⟨"ruby", "x"⟩ (FetchOutcome.transportError "m") ⟨none, 0⟩ (by decide)⟩

/-- Claim C9: a failed attempt (ServiceError or TransportError) leaves the
panel state exactly as it was and posts no message, whatever the trigger. -/
theorem c9_failure_frame (fc : Bool) (ed : Editor) (msg : String) (st : PanelSt) :
    ((performAnalysis fc (some ed) (FetchOutcome.serviceError msg) st).1 = st
      ∧ (performAnalysis fc (some ed) (FetchOutcome.serviceError msg) st).2.posted = [])
    ∧ ((performAnalysis fc (some ed) (FetchOutcome.transportError msg) st).1 = st
      ∧ (performAnalysis fc (some ed) (FetchOutcome.transportError msg) st).2.posted = []) := by
  cases h : mapLanguage ed.languageId <;> simp [performAnalysis, h]

/-- Running events is iterated stepping; appending traces composes. -/
theorem run_append (st : SchedState) (l1 l2 : List Ev) :
    run st (l1 ++ l2) = run (run st l1) l2 := by
  simp [run, List.foldl_append]

/-- An edit to the active supported-language document re-arms the
debounce timer for the full delay and updates the active text. -/
theorem step_edit (st : SchedState) (ed : Editor) (newText : String)
    (hact : st.active = some ed) (hsup : supportedTags.contains ed.languageId = true) :
    step st (Ev.edit newText) =
      { st with active := some { ed with text := newText },
                deadline := some (st.now + DEBOUNCE_DELAY_MS) } := by
  have hmem : ed.languageId ∈ supportedTags := by simpa using hsup
  simp [step, hact, hmem]

/-- Elapsing time that falls short of the pending deadline only advances
the clock. -/
theorem step_elapse_nofire (st : SchedState) (t d : Nat) (o : FetchOutcome)
    (hdl : st.deadline = some t) (h : ¬ t ≤ st.now + d) :
    step st (Ev.elapse d o) = { st with now := st.now + d } := by
  simp [step, hdl, h]

/-- Elapsing time past the pending deadline fires the debounce timer:
one Background analysis runs at the deadline instant, sampling the
active editor and panel at that moment. -/
theorem step_elapse_fire (st : SchedState) (t d : Nat) (o : FetchOutcome)
    (hdl : st.deadline = some t) (h : t ≤ st.now + d) :
    step st (Ev.elapse d o) =
      { st with now := st.now + d, deadline := none,
                panel := (performAnalysis false st.active o st.panel).1,
                log := st.log ++ [{ time := t, trigger := Trigger.background,
                                    output := (performAnalysis false st.active o st.panel).2 }] } := by
  simp [step, runAnalysisStep, Trigger.force, hdl, h]

/-- Claim C2 counterexample: a pending timer armed by an edit at time 0 is
not cancelled by a focus-change event; it still fires, producing a second
(Background) analysis after the focus-triggered one, and right after the
focus event the deadline is still armed. -/
theorem c2_counterexample :
    (run ⟨0, some ⟨"python", "a"⟩, none, ⟨none, 0⟩, []⟩
       [Ev.edit "a2", Ev.focus (some ⟨"java", "b"⟩) (FetchOutcome.success "R"),
        Ev.elapse 500 (FetchOutcome.success "R")]).log.map AnalysisRecord.trigger
      = [Trigger.focusChange, Trigger.background]
    ∧ (run ⟨0, some ⟨"python", "a"⟩, none, ⟨none, 0⟩, []⟩
       [Ev.edit "a2", Ev.focus (some ⟨"java", "b"⟩) (FetchOutcome.success "R")]).deadline
      = some 500 := by
  decide

/-- Claim C2 (amended): with a debounce timer pending, a manual command
or a focus-change event to a supported-language editor runs an analysis
immediately (logged at the current instant, no delay), but the pending
background timer is left armed, not cancelled. -/
theorem c2_immediate_but_no_cancel (st : SchedState) (t : Nat) (ed : Editor) (o : FetchOutcome)
    (hdl : st.deadline = some t)
    (hsup : supportedTags.contains ed.languageId = true) :
    ((step st (Ev.manual o)).log =
        st.log ++ [{ time := st.now, trigger := Trigger.manual,
                     output := (performAnalysis true st.active o st.panel).2 }]
      ∧ (step st (Ev.manual o)).deadline = some t)
    ∧ ((step st (Ev.focus (some ed) o)).log =
        st.log ++ [{ time := st.now, trigger := Trigger.focusChange,
                     output := (performAnalysis false (some ed) o st.panel).2 }]
      ∧ (step st (Ev.focus (some ed) o)).deadline = some t) := by
  have hmem : ed.languageId ∈ supportedTags := by simpa using hsup
  refine ⟨⟨?_, ?_⟩, ⟨?_, ?_⟩⟩ <;> simp [step, runAnalysisStep, Trigger.force, hmem, hdl]

/-- Claim C2 witness: concrete state with a pending timer, manual and
focus events logged immediately with the timer still armed. -/
theorem c2_witness :
    ((step ⟨9, some ⟨"python", "a"⟩, some 500, ⟨none, 0⟩, []⟩
        (Ev.manual (FetchOutcome.success "R"))).log =
       [] ++ [{ time := 9, trigger := Trigger.manual,
                output := (performAnalysis true (some ⟨"python", "a"⟩)
                  (FetchOutcome.success "R") ⟨none, 0⟩).2 }]
      ∧ (step ⟨9, some ⟨"python", "a"⟩, some 500, ⟨none, 0⟩, []⟩
          (Ev.manual (FetchOutcome.success "R"))).deadline = some 500)
    ∧ ((step ⟨9, some ⟨"python", "a"⟩, some 500, ⟨none, 0⟩, []⟩
          (Ev.focus (some ⟨"java", "b"⟩) (FetchOutcome.success "R"))).log =
       [] ++ [{ time := 9, trigger := Trigger.focusChange,
                output := (performAnalysis false (some ⟨"java", "b"⟩)
                  (FetchOutcome.success "R") ⟨none, 0⟩).2 }]
      ∧ (step ⟨9, some ⟨"python", "a"⟩, some 500, ⟨none, 0⟩, []⟩
          (Ev.focus (some ⟨"java", "b"⟩) (FetchOutcome.success "R"))).deadline = some 500) :=
  c2_immediate_but_no_cancel ⟨9, some ⟨"python", "a"⟩, some 500, ⟨none, 0⟩, []⟩
    500 ⟨"java", "b"⟩ (FetchOutcome.success "R") rfl (by decide)

/-- During the tail of a burst (each gap strictly below the debounce
delay), no timer fires: the clock advances by the gaps, the active text
tracks the latest edit, the deadline tracks the last edit, and neither
panel nor log changes. -/
theorem run_burstTail (o : FetchOutcome) :
    ∀ (rest : List (Nat × String)) (ed : Editor) (st : SchedState),
      supportedTags.contains ed.languageId = true →
      st.active = some ed →
      st.deadline = some (st.now + DEBOUNCE_DELAY_MS) →
      (∀ p ∈ rest, p.1 < DEBOUNCE_DELAY_MS) →
      (run st (burstTail o rest)).now = st.now + gapSum rest
      ∧ (run st (burstTail o rest)).active = some { ed with text := lastText ed.text rest }
      ∧ (run st (burstTail o rest)).deadline = some (st.now + gapSum rest + DEBOUNCE_DELAY_MS)
      ∧ (run st (burstTail o rest)).panel = st.panel
      ∧ (run st (burstTail o rest)).log = st.log := by
  intro rest
  induction rest with
  | nil =>
    intro ed st hsup hact hdl _
    simp [run, burstTail, gapSum, lastText, hact, hdl]
  | cons p rs ih =>
    obtain ⟨g, t⟩ := p
    intro ed st hsup hact hdl hgaps
    have hg : g < DEBOUNCE_DELAY_MS := hgaps (g, t) (List.mem_cons_self _ _)
    have hrs : ∀ q ∈ rs, q.1 < DEBOUNCE_DELAY_MS := fun q hq => hgaps q (List.mem_cons_of_mem _ hq)
    have e1 : step st (Ev.elapse g o) = { st with now := st.now + g } :=
      step_elapse_nofire st (st.now + DEBOUNCE_DELAY_MS) g o hdl (by omega)
    have hact1 : ({ st with now := st.now + g } : SchedState).active = some ed := hact
    have e2 : step { st with now := st.now + g } (Ev.edit t) =
        { st with now := st.now + g, active := some { ed with text := t },
                  deadline := some (st.now + g + DEBOUNCE_DELAY_MS) } := by
      have := step_edit { st with now := st.now + g } ed t hact1 hsup
      simpa using this
    have ihx := ih { ed with text := t }
      { st with now := st.now + g, active := some { ed with text := t },
                deadline := some (st.now + g + DEBOUNCE_DELAY_MS) }
      (by simpa using hsup) rfl rfl hrs
    obtain ⟨ihn, iha, ihd, ihp, ihl⟩ := ihx
    have hrun : run st (burstTail o ((g, t) :: rs)) =
        run { st with now := st.now + g, active := some { ed with text := t },
                      deadline := some (st.now + g + DEBOUNCE_DELAY_MS) } (burstTail o rs) := by
      simp [burstTail, run, e1, e2]
    rw [hrun]
    refine ⟨?_, ?_, ?_, ?_, ?_⟩
    · rw [ihn]; simp [gapSum, Nat.add_assoc]
    · rw [iha]; simp [lastText]
    · rw [ihd]; simp [gapSum, Nat.add_assoc]
    · rw [ihp]
    · rw [ihl]

/-- Claim C3: a burst of edits to the active supported-language document,
each arriving strictly less than the debounce delay after the previous
one with no other event in between, logs exactly one Background analysis,
at the debounce delay after the last edit, whose request carries the last
edit's text; afterwards no timer is pending. -/
theorem c3_debounced_burst (st0 : SchedState) (ed : Editor) (lang firstText : String)
    (rest : List (Nat × String)) (outcome : FetchOutcome)
    (hact : st0.active = some ed)
    (hsup : supportedTags.contains ed.languageId = true)
    (hmap : mapLanguage ed.languageId = some lang)
    (hgaps : ∀ p ∈ rest, p.1 < DEBOUNCE_DELAY_MS) :
    (run st0 (burstTrace firstText rest outcome)).log =
      st0.log ++ [{ time := st0.now + gapSum rest + DEBOUNCE_DELAY_MS,
                    trigger := Trigger.background,
                    output := (performAnalysis false
                      (some { ed with text := lastText firstText rest })
                      outcome st0.panel).2 }]
    ∧ (performAnalysis false (some { ed with text := lastText firstText rest })
         outcome st0.panel).2.requests =
        [{ code := lastText firstText rest, language := lang }]
    ∧ (run st0 (burstTrace firstText rest outcome)).deadline = none := by
  have e1 : step st0 (Ev.edit firstText) =
      { st0 with active := some { ed with text := firstText },
                 deadline := some (st0.now + DEBOUNCE_DELAY_MS) } :=
    step_edit st0 ed firstText hact hsup
  have hdecomp : run st0 (burstTrace firstText rest outcome) =
      step (run { st0 with active := some { ed with text := firstText },
                           deadline := some (st0.now + DEBOUNCE_DELAY_MS) }
             (burstTail outcome rest))
        (Ev.elapse DEBOUNCE_DELAY_MS outcome) := by
    calc run st0 (burstTrace firstText rest outcome)
        = run (step st0 (Ev.edit firstText))
            (burstTail outcome rest ++ [Ev.elapse DEBOUNCE_DELAY_MS outcome]) := rfl
      _ = run { st0 with active := some { ed with text := firstText },
                         deadline := some (st0.now + DEBOUNCE_DELAY_MS) }
            (burstTail outcome rest ++ [Ev.elapse DEBOUNCE_DELAY_MS outcome]) := by rw [e1]
      _ = _ := by rw [run_append]; rfl
  have hb := run_burstTail outcome rest { ed with text := firstText }
    { st0 with active := some { ed with text := firstText },
               deadline := some (st0.now + DEBOUNCE_DELAY_MS) }
    (by simpa using hsup) rfl rfl hgaps
  obtain ⟨hn, ha, hd, hp, hl⟩ := hb
  have e3 := step_elapse_fire _ _ DEBOUNCE_DELAY_MS outcome hd (by simp [hn])
  refine ⟨?_, ?_, ?_⟩
  · rw [hdecomp, e3]
    simp [hl, ha, hp, lastText]
  · exact performAnalysis_requests_eq false { ed with text := lastText firstText rest }
      outcome st0.panel lang (by simpa using hmap)
  · rw [hdecomp, e3]

/-- Claim C3 witness: a two-edit burst 100 ms apart on a python document;
one Background record at 600 ms carrying the second edit's text. -/
theorem c3_witness :
    (run ⟨0, some ⟨"python", "a"⟩, none, ⟨none, 0⟩, []⟩
        (burstTrace "b" [(100, "c")] (FetchOutcome.success "R"))).log =
      [] ++ [{ time := 0 + gapSum [(100, "c")] + DEBOUNCE_DELAY_MS,
               trigger := Trigger.background,
               output := (performAnalysis false
                 (some ⟨"python", lastText "b" [(100, "c")]⟩)
                 (FetchOutcome.success "R") ⟨none, 0⟩).2 }]
    ∧ (performAnalysis false (some ⟨"python", lastText "b" [(100, "c")]⟩)
         (FetchOutcome.success "R") ⟨none, 0⟩).2.requests =
        [{ code := lastText "b" [(100, "c")], language := "python" }]
    ∧ (run ⟨0, some ⟨"python", "a"⟩, none, ⟨none, 0⟩, []⟩
        (burstTrace "b" [(100, "c")] (FetchOutcome.success "R"))).deadline = none :=
  c3_debounced_burst ⟨0, some ⟨"python", "a"⟩, none, ⟨none, 0⟩, []⟩ ⟨"python", "a"⟩
    "python" "b" [(100, "c")] (FetchOutcome.success "R") rfl (by decide) (by decide) (by decide)

/-- Claim C10: a firing debounce timer runs an analysis that samples the
editor active at that moment (the record's output is a function of the
state at fire time); a Background attempt with no active editor sends
nothing and shows nothing, while a Manual attempt with no active editor
shows only the no-active-editor notice; concretely, arming the timer on
a python document and then switching focus to a java document makes the
timer-fired attempt carry the java document's text. -/
theorem c10_samples_active_at_run_time (st stm : SchedState) (t d : Nat) (o om : FetchOutcome)
    (hdl : st.deadline = some t) (hfire : t ≤ st.now + d)
    (hnone : stm.active = none) :
    (step st (Ev.elapse d o)).log =
        st.log ++ [{ time := t, trigger := Trigger.background,
                     output := (performAnalysis false st.active o st.panel).2 }]
    ∧ (performAnalysis false stm.active om stm.panel).2 =
        { requests := [], notices := [], posted := [], revealed := [] }
    ∧ (step stm (Ev.manual om)).log =
        stm.log ++ [{ time := stm.now, trigger := Trigger.manual,
                      output := { requests := [], notices := [Notice.infoNoActiveEditor],
                                  posted := [], revealed := [] } }]
    ∧ (run ⟨0, some ⟨"python", "A0"⟩, none, ⟨none, 0⟩, []⟩
         [Ev.edit "A", Ev.focus (some ⟨"java", "B"⟩) (FetchOutcome.success "R1"),
          Ev.elapse DEBOUNCE_DELAY_MS (FetchOutcome.success "R2")]).log.map
           (fun r => (r.trigger, r.output.requests))
        = [(Trigger.focusChange, [{ code := "B", language := "java" }]),
           (Trigger.background, [{ code := "B", language := "java" }])] := by
  refine ⟨?_, ?_, ?_, ?_⟩
  · rw [step_elapse_fire st t d o hdl hfire]
  · simp [performAnalysis, hnone]
  · simp [step, runAnalysisStep, Trigger.force, hnone, performAnalysis]
  · decide

/-- Claim C10 witness: concrete pending-timer state and concrete
no-editor states. -/
theorem c10_witness :
    (step ⟨3, some ⟨"python", "a"⟩, some 503, ⟨none, 0⟩, []⟩
        (Ev.elapse 500 (FetchOutcome.success "R"))).log =
      [] ++ [{ time := 503, trigger := Trigger.background,
               output := (performAnalysis false (some ⟨"python", "a"⟩)
                 (FetchOutcome.success "R") ⟨none, 0⟩).2 }]
    ∧ (performAnalysis false none (FetchOutcome.serviceError "E") ⟨none, 0⟩).2 =
        { requests := [], notices := [], posted := [], revealed := [] }
    ∧ (step ⟨7, none, none, ⟨none, 0⟩, []⟩
        (Ev.manual (FetchOutcome.serviceError "E"))).log =
      [] ++ [{ time := 7, trigger := Trigger.manual,
               output := { requests := [], notices := [Notice.infoNoActiveEditor],
                           posted := [], revealed := [] } }]
    ∧ (run ⟨0, some ⟨"python", "A0"⟩, none, ⟨none, 0⟩, []⟩
         [Ev.edit "A", Ev.focus (some ⟨"java", "B"⟩) (FetchOutcome.success "R1"),
          Ev.elapse DEBOUNCE_DELAY_MS (FetchOutcome.success "R2")]).log.map
           (fun r => (r.trigger, r.output.requests))
        = [(Trigger.focusChange, [{ code := "B", language := "java" }]),
           (Trigger.background, [{ code := "B", language := "java" }])] :=
  c10_samples_active_at_run_time ⟨3, some ⟨"python", "a"⟩, some 503, ⟨none, 0⟩, []⟩
    ⟨7, none, none, ⟨none, 0⟩, []⟩ 503 500 (FetchOutcome.success "R")
    (FetchOutcome.serviceError "E") rfl (by decide) rfl
